import Mathlib

/-!
Verification development for the space cargo stowage system.

Shallow embedding of the core of the repository:
  * `backend/models/item.py` (Item) and `backend/models/container.py` (Container),
  * `backend/engines/retrieval_engine.py` (RetrievalEngine),
  * `backend/engines/waste_engine.py` (WasteEngine),
  * `backend/engines/advanced_placement_engine.py`
    (PriorityCalculator, FreeSpace, PlacedItem, ContainerState).

Modelling conventions:
  * Python floats are modelled as rationals (`Rat`).
  * Python `datetime` instants are modelled as integers (`Int`), read as a count of
    days; `(a - b).days` on these instants is plain integer subtraction.
  * `datetime.fromisoformat` (an external library function) is an abstract
    parameter `parse : String → Option Int`; `none` models the `ValueError` path
    of the surrounding `try`/`except` blocks.
  * The in-memory stores (`MemoryStore`, Python dicts keyed by `itemId` /
    `containerId`) are modelled as lists looked up by that id; `dict.get` is a
    first-match lookup and in-place mutation of a stored object is replacement of
    the first matching entry.
-/

/-- Mirrors `utils/coordinates.py` `Coordinates3D`: width along the open face,
depth into the container, height vertical. -/
structure Coordinates3D where
  width : Rat
  depth : Rat
  height : Rat
deriving Repr, DecidableEq

/-- Mirrors an Item `position` dict: `{startCoordinates, endCoordinates}`. -/
structure Position where
  startCoordinates : Coordinates3D
  endCoordinates : Coordinates3D
deriving Repr, DecidableEq

/-- Mirrors `models/item.py` `Item` (pydantic model).  The placement fields
`containerId` and `position` are `Optional` in the source. -/
structure Item where
  itemId : String
  name : String
  width : Rat
  depth : Rat
  height : Rat
  priority : Int
  preferredZone : String
  mass : Rat
  expiryDate : Option String
  usageLimit : Int
  containerId : Option String
  position : Option Position
  currentUses : Int
  placementTimestamp : Option String
deriving Repr, DecidableEq

/-- Mirrors `models/container.py` `Container`; `items` is the cached list of
item ids assigned to the container. -/
structure Container where
  containerId : String
  zone : String
  width : Rat
  depth : Rat
  height : Rat
  items : List String
deriving Repr, DecidableEq

/-- Python truthiness of an `Optional[str]`: `None` and `""` are falsy. -/
def falsyOptStr : Option String → Bool
  | none => true
  | some s => s == ""

/-- Guard `not item.containerId or not item.position` that the retrieval and
waste engines use to skip unplaced items. -/
def Item.not_placed (item : Item) : Bool :=
  falsyOptStr item.containerId || item.position.isNone

/-- Mirrors `Item.is_expired`: `False` on no expiry, `"N/A"`, or an unparseable
date (the bare `except` branch); otherwise `current_date > expiry`.  Python
truthiness makes the empty string count as "no expiry". -/
def Item.is_expired (parse : String → Option Int) (item : Item) (current_date : Int) : Bool :=
  match item.expiryDate with
  | none => false
  | some s =>
    if s == "" || s == "N/A" then false
    else
      match parse s with
      | none => false
      | some expiry => decide (current_date > expiry)

/-- Mirrors `Item.is_depleted`: `currentUses >= usageLimit`. -/
def Item.is_depleted (item : Item) : Bool :=
  decide (item.currentUses ≥ item.usageLimit)

/-- The item store: `MemoryStore.items`, a dict keyed by `itemId`. -/
abbrev ItemStore := List Item

/-- The container store: `MemoryStore.containers`, a dict keyed by `containerId`. -/
abbrev ContainerStore := List Container

/-- `placed_items.get(item_id)`. -/
def lookupItem (store : ItemStore) (item_id : String) : Option Item :=
  store.find? (fun it => it.itemId == item_id)

/-- `containers.get(container_id)`. -/
def lookupContainer (store : ContainerStore) (container_id : String) : Option Container :=
  store.find? (fun c => c.containerId == container_id)

/-- In-place mutation of the stored object with a given id (first match). -/
def updateItem (store : ItemStore) (item_id : String) (f : Item → Item) : ItemStore :=
  match store with
  | [] => []
  | it :: rest =>
    if it.itemId == item_id then f it :: rest else it :: updateItem rest item_id f

/-- Mirrors `RetrievalEngine._overlaps_in_plane`: strict overlap of the two
width-height projections. -/
def overlaps_in_plane (target_start target_end item_start item_end : Coordinates3D) : Bool :=
  let width_overlap :=
    !(decide (target_end.width ≤ item_start.width) || decide (target_start.width ≥ item_end.width))
  let height_overlap :=
    !(decide (target_end.height ≤ item_start.height) || decide (target_start.height ≥ item_end.height))
  width_overlap && height_overlap

/-- The per-item blocking test shared verbatim by
`RetrievalEngine.calculate_retrieval_steps` and `RetrievalEngine._get_blocking_items`:
same container, different id, has a position, `item_end.depth > target_start.depth`,
and width-height overlap. -/
def blocks_target (target_item : Item) (target_pos : Position) (item : Item) : Bool :=
  item.containerId == target_item.containerId &&
  item.itemId != target_item.itemId &&
  (match item.position with
   | none => false
   | some ipos =>
     decide (ipos.endCoordinates.depth > target_pos.startCoordinates.depth) &&
     overlaps_in_plane target_pos.startCoordinates target_pos.endCoordinates
       ipos.startCoordinates ipos.endCoordinates)

/-- Sort key `Coordinates3D.from_dict(x.position["startCoordinates"]).depth`. -/
def position_start_depth (item : Item) : Rat :=
  match item.position with
  | some p => p.startCoordinates.depth
  | none => 0

/-- Mirrors `RetrievalEngine._get_blocking_items`: collect blockers, then sort
ascending by their start depth (Python `list.sort` is stable). -/
def get_blocking_items (target_item : Item) (placed_items : ItemStore) : List Item :=
  match target_item.position with
  | none => []
  | some target_pos =>
    if falsyOptStr target_item.containerId then []
    else
      (placed_items.filter (blocks_target target_item target_pos)).mergeSort
        (fun a b => decide (position_start_depth a ≤ position_start_depth b))

/-- One entry of a retrieval plan, `{step, action, itemId, itemName}`. -/
structure RetrievalStep where
  step : Nat
  action : String
  itemId : String
  itemName : String
deriving Repr, DecidableEq

/-- Sequential numbering of steps starting at `start`. -/
def number_steps (start : Nat) : List (String × String × String) → List RetrievalStep
  | [] => []
  | (action, id, nm) :: rest => ⟨start, action, id, nm⟩ :: number_steps (start + 1) rest

/-- Mirrors `RetrievalEngine.get_retrieval_steps`: `remove` for each blocker in
sorted order, `retrieve` for the target, `placeBack` for blockers in reverse
order, numbered sequentially from 1. -/
def get_retrieval_steps (target_item : Item) (placed_items : ItemStore) : List RetrievalStep :=
  if target_item.not_placed then []
  else
    let blocking_items := get_blocking_items target_item placed_items
    number_steps 1
      ((blocking_items.map (fun it => ("remove", it.itemId, it.name))) ++
       [("retrieve", target_item.itemId, target_item.name)] ++
       (blocking_items.reverse.map (fun it => ("placeBack", it.itemId, it.name))))

/-- Mirrors `RetrievalEngine.simulate_retrieval`.  Returns the (possibly
mutated) store together with Python's `(bool, str, Optional[Item])` result.
The `user_id` argument is unused in the source as well. -/
def simulate_retrieval (parse : String → Option Int) (item_id : String) (_user_id : String)
    (placed_items : ItemStore) (current_date : Int) :
    ItemStore × Bool × String × Option Item :=
  match lookupItem placed_items item_id with
  | none => (placed_items, false, "Item " ++ item_id ++ " not found", none)
  | some item =>
    if item.not_placed then
      (placed_items, false, "Item " ++ item_id ++ " is not placed in any container", none)
    else if item.is_expired parse current_date then
      (placed_items, false, "Item " ++ item_id ++ " is expired", none)
    else if item.is_depleted then
      (placed_items, false, "Item " ++ item_id ++ " has no remaining uses", none)
    else
      (updateItem placed_items item_id (fun it => { it with currentUses := it.currentUses + 1 }),
       true, "Item retrieved successfully",
       some { item with currentUses := item.currentUses + 1 })

/-- One entry of `WasteEngine.identify_waste_items`. -/
structure WasteInfo where
  itemId : String
  name : String
  reason : String
  containerId : Option String
  position : Option Position
deriving Repr, DecidableEq

/-- Loop body of `WasteEngine.identify_waste_items`: skip unplaced items,
report `"Expired"` first, else `"Out of Uses"`, else nothing. -/
def waste_entry (parse : String → Option Int) (current_date : Int) (item : Item) :
    Option WasteInfo :=
  if item.not_placed then none
  else if item.is_expired parse current_date then
    some ⟨item.itemId, item.name, "Expired", item.containerId, item.position⟩
  else if item.is_depleted then
    some ⟨item.itemId, item.name, "Out of Uses", item.containerId, item.position⟩
  else none

/-- Mirrors `WasteEngine.identify_waste_items` (iteration over the store's
values in order). -/
def identify_waste_items (parse : String → Option Int) (placed_items : ItemStore)
    (current_date : Int) : List WasteInfo :=
  placed_items.filterMap (waste_entry parse current_date)

/-- Mirrors `WasteEngine.execute_undocking`: unknown container id fails with
count 0 and no changes; otherwise every item whose `containerId` equals the
undocking container is deleted from the item store, the container record is
deleted, and the count of deleted items is returned. -/
def execute_undocking (undocking_container_id : String) (placed_items : ItemStore)
    (containers : ContainerStore) : Bool × Nat × ItemStore × ContainerStore :=
  match lookupContainer containers undocking_container_id with
  | none => (false, 0, placed_items, containers)
  | some _ =>
    let items_to_remove :=
      placed_items.filter (fun item => item.containerId == some undocking_container_id)
    (true, items_to_remove.length,
     placed_items.filter (fun item => !(item.containerId == some undocking_container_id)),
     containers.filter (fun c => !(c.containerId == undocking_container_id)))

/-- Mirrors `advanced_placement_engine.py` `FreeSpace`: an axis-aligned empty
box, origin `(x, y, z)` and extents `(width, depth, height)`. -/
structure FreeSpace where
  x : Rat
  y : Rat
  z : Rat
  width : Rat
  depth : Rat
  height : Rat
deriving Repr, DecidableEq

/-- Mirrors `FreeSpace.volume`. -/
def FreeSpace.volume (fs : FreeSpace) : Rat :=
  fs.width * fs.depth * fs.height

/-- Mirrors `advanced_placement_engine.py` `PlacedItem` (the impure
`time.time()` timestamp field is not modelled). -/
structure PlacedItem where
  item_id : String
  x : Rat
  y : Rat
  z : Rat
  width : Rat
  depth : Rat
  height : Rat
  original_dims : Rat × Rat × Rat
  priority : Int
deriving Repr, DecidableEq

/-- Mirrors `advanced_placement_engine.py` `ContainerState`. -/
structure ContainerState where
  container_id : String
  width : Rat
  depth : Rat
  height : Rat
  zone : String
  placed_items : List PlacedItem
  free_spaces : List FreeSpace
  total_volume : Rat
  used_volume : Rat
deriving Repr, DecidableEq

/-- Mirrors `ContainerState.__init__`: no placed items, one free box spanning
the whole container. -/
def initContainerState (container_id : String) (width depth height : Rat) (zone : String) :
    ContainerState :=
  ⟨container_id, width, depth, height, zone, [], [⟨0, 0, 0, width, depth, height⟩],
   width * depth * height, 0⟩

/-- The separation disjunction checked per placed item inside
`ContainerState.can_place_item` (negation of AABB overlap on some axis). -/
def separated_from (x y z w d h : Rat) (p : PlacedItem) : Bool :=
  decide (x + w ≤ p.x) || decide (x ≥ p.x + p.width) ||
  decide (y + d ≤ p.y) || decide (y ≥ p.y + p.depth) ||
  decide (z + h ≤ p.z) || decide (z ≥ p.z + p.height)

/-- Mirrors `ContainerState.can_place_item`: the early-returning boundary check
followed by the early-returning AABB collision loop, as one conjunction. -/
def ContainerState.can_place_item (st : ContainerState) (x y z w d h : Rat) : Bool :=
  (!(decide (x < 0) || decide (y < 0) || decide (z < 0) ||
     decide (x + w > st.width) || decide (y + d > st.depth) || decide (z + h > st.height))) &&
  st.placed_items.all (separated_from x y z w d h)

/-- Mirrors `ContainerState._spaces_overlap`: strict 3D overlap of two boxes. -/
def spaces_overlap (s1 s2 : FreeSpace) : Bool :=
  !(decide (s1.x + s1.width ≤ s2.x) || decide (s2.x + s2.width ≤ s1.x) ||
    decide (s1.y + s1.depth ≤ s2.y) || decide (s2.y + s2.depth ≤ s1.y) ||
    decide (s1.z + s1.height ≤ s2.z) || decide (s2.z + s2.height ≤ s1.z))

/-- Loop body of `ContainerState._update_free_spaces`: a free box overlapping
the newly placed box is replaced by at most a left and a right residual along
the width axis, keeping only residuals of volume above 10; a non-overlapping
box is kept as is. -/
def split_free_space (item_space free_space : FreeSpace) : List FreeSpace :=
  if spaces_overlap free_space item_space then
    ((if item_space.x > free_space.x then
        [(⟨free_space.x, free_space.y, free_space.z,
           item_space.x - free_space.x, free_space.depth, free_space.height⟩ : FreeSpace)]
      else []) ++
     (if free_space.x + free_space.width > item_space.x + item_space.width then
        [(⟨item_space.x + item_space.width, free_space.y, free_space.z,
           (free_space.x + free_space.width) - (item_space.x + item_space.width),
           free_space.depth, free_space.height⟩ : FreeSpace)]
      else [])).filter (fun s => decide (s.volume > 10))
  else [free_space]

/-- The free-space list rebuilt by `_update_free_spaces` from the split of
every previous box, capped at the 50 largest. -/
def update_free_spaces (free_spaces : List FreeSpace) (x y z width depth height : Rat) :
    List FreeSpace :=
  let item_space : FreeSpace := ⟨x, y, z, width, depth, height⟩
  let new_free_spaces := free_spaces.flatMap (split_free_space item_space)
  if new_free_spaces.length > 50 then
    (new_free_spaces.mergeSort (fun a b => decide (b.volume ≤ a.volume))).take 50
  else new_free_spaces

/-- Mirrors `ContainerState.place_item`: refuse when `can_place_item` fails,
else append the placed item, add its volume, and regenerate the free spaces.
The returned `Bool` is the Python return value; the state is the mutated
`self`. -/
def ContainerState.place_item (st : ContainerState) (item_id : String)
    (x y z width depth height : Rat) (original_dims : Rat × Rat × Rat) (priority : Int) :
    ContainerState × Bool :=
  if st.can_place_item x y z width depth height then
    ({ st with
        placed_items := st.placed_items ++
          [⟨item_id, x, y, z, width, depth, height, original_dims, priority⟩],
        used_volume := st.used_volume + width * depth * height,
        free_spaces := update_free_spaces st.free_spaces x y z width depth height },
     true)
  else (st, false)

/-- One `place_item` call: the arguments of `ContainerState.place_item`. -/
structure PlaceReq where
  item_id : String
  x : Rat
  y : Rat
  z : Rat
  width : Rat
  depth : Rat
  height : Rat
  original_dims : Rat × Rat × Rat
  priority : Int
deriving Repr, DecidableEq

/-- A sequence of `place_item` calls applied to a container state (each call's
returned flag is discarded; a refused call leaves the state unchanged). -/
def applyPlacements (st : ContainerState) (reqs : List PlaceReq) : ContainerState :=
  reqs.foldl
    (fun s r =>
      (s.place_item r.item_id r.x r.y r.z r.width r.depth r.height r.original_dims
        r.priority).1)
    st

/-- Mirrors `PriorityCalculator.calculate_composite_priority`.  The usage
depletion block is guarded by `hasattr(item, 'usageCount')`; the `Item` model
defines `currentUses` and no `usageCount` attribute, so that guard is always
false and the usage score is always 0. -/
def calculate_composite_priority (parse : String → Option Int) (item : Item)
    (current_time : Int) : Rat :=
  let base_priority : Rat := ((item.priority : Rat) / 100) * 40
  let expiry_score : Rat :=
    match item.expiryDate with
    | none => 0
    | some s =>
      if s == "" then 0
      else
        match parse s with
        | none => 0
        | some expiry_date =>
          let days_to_expiry : Int := expiry_date - current_time
          if days_to_expiry ≤ 0 then 30
          else if days_to_expiry ≤ 7 then 25
          else if days_to_expiry ≤ 30 then 15
          else if days_to_expiry ≤ 90 then 5
          else 0
  let usage_score : Rat := 0
  let zone_score : Rat :=
    if item.priority ≥ 80 then 10
    else if item.priority ≥ 60 then 5
    else 0
  min (base_priority + expiry_score + usage_score + zone_score) 100

/-- Composite score as the specification words it (§4.3): the same base,
expiry and zone terms, plus the usage-depletion term computed from
`remaining = usageLimit - currentUses` with breakpoints 20 / 15 / 10 / 5 / 0.
Stated for comparison with `calculate_composite_priority`. -/
def composite_score_spec (parse : String → Option Int) (item : Item)
    (current_time : Int) : Rat :=
  let base_priority : Rat := ((item.priority : Rat) / 100) * 40
  let expiry_score : Rat :=
    match item.expiryDate with
    | none => 0
    | some s =>
      if s == "" then 0
      else
        match parse s with
        | none => 0
        | some expiry_date =>
          let days_to_expiry : Int := expiry_date - current_time
          if days_to_expiry ≤ 0 then 30
          else if days_to_expiry ≤ 7 then 25
          else if days_to_expiry ≤ 30 then 15
          else if days_to_expiry ≤ 90 then 5
          else 0
  let usage_score : Rat :=
    if item.usageLimit > 0 then
      let remaining_uses : Int := item.usageLimit - item.currentUses
      if remaining_uses ≤ 0 then 20
      else if (remaining_uses : Rat) / (item.usageLimit : Rat) ≤ 1 / 10 then 15
      else if (remaining_uses : Rat) / (item.usageLimit : Rat) ≤ 1 / 4 then 10
      else if (remaining_uses : Rat) / (item.usageLimit : Rat) ≤ 1 / 2 then 5
      else 0
    else 0
  let zone_score : Rat :=
    if item.priority ≥ 80 then 10
    else if item.priority ≥ 60 then 5
    else 0
  min (base_priority + expiry_score + usage_score + zone_score) 100

/-- Target item A of the C2 blocking scenario: placed in container `contA` at
depth 10..20, width 0..5, height 0..5. -/
def retrieval_target_A : Item :=
  { itemId := "000100", name := "TargetA", width := 5, depth := 10, height := 5,
    priority := 50, preferredZone := "Storage_Bay", mass := 1, expiryDate := none,
    usageLimit := 100, containerId := some "contA",
    position := some ⟨⟨0, 10, 0⟩, ⟨5, 20, 5⟩⟩, currentUses := 0,
    placementTimestamp := none }

/-- Item B of the C2 blocking scenario: same container, strictly in front of A
(depth 0..5) with the same width-height footprint 0..5 × 0..5. -/
def retrieval_blocker_B : Item :=
  { itemId := "000101", name := "BlockerB", width := 5, depth := 5, height := 5,
    priority := 50, preferredZone := "Storage_Bay", mass := 1, expiryDate := none,
    usageLimit := 100, containerId := some "contA",
    position := some ⟨⟨0, 0, 0⟩, ⟨5, 5, 5⟩⟩, currentUses := 0,
    placementTimestamp := none }

/-- The blocking relation as the specification states it: B is strictly closer
to the opening (`B.depth_start < A.depth_start`) and B's width-height projection
overlaps A's. -/
def spec_blocks (target blocker : Item) : Prop :=
  match target.position, blocker.position with
  | some tpos, some bpos =>
    bpos.startCoordinates.depth < tpos.startCoordinates.depth ∧
    overlaps_in_plane tpos.startCoordinates tpos.endCoordinates
      bpos.startCoordinates bpos.endCoordinates = true
  | _, _ => False

/-- Concrete item for C3: priority 40, no expiry, usage fully depleted
(`currentUses = usageLimit = 10`). -/
def usage_dead_item : Item :=
  { itemId := "000031", name := "UsageProbe", width := 1, depth := 1, height := 1,
    priority := 40, preferredZone := "Storage_Bay", mass := 1, expiryDate := none,
    usageLimit := 10, containerId := none, position := none, currentUses := 10,
    placementTimestamp := none }

/-- An item assigned to the undocking container `undockC`. -/
def undock_item_I1 : Item :=
  { itemId := "000201", name := "WasteBox", width := 1, depth := 1, height := 1,
    priority := 10, preferredZone := "Storage_Bay", mass := 1, expiryDate := none,
    usageLimit := 5, containerId := some "undockC",
    position := some ⟨⟨0, 0, 0⟩, ⟨1, 1, 1⟩⟩, currentUses := 0,
    placementTimestamp := none }

/-- An item assigned to a different container `otherC`. -/
def undock_item_I2 : Item :=
  { itemId := "000202", name := "Keeper", width := 1, depth := 1, height := 1,
    priority := 10, preferredZone := "Storage_Bay", mass := 1, expiryDate := none,
    usageLimit := 5, containerId := some "otherC",
    position := some ⟨⟨0, 0, 0⟩, ⟨1, 1, 1⟩⟩, currentUses := 0,
    placementTimestamp := none }

/-- The undocking container record. -/
def undock_container_C1 : Container :=
  ⟨"undockC", "Storage_Bay", 10, 10, 10, ["000201"]⟩

/-- Placed item with an unparseable expiry string, used to instantiate C10. -/
def unparse_item : Item :=
  { itemId := "000301", name := "OddDate", width := 1, depth := 1, height := 1,
    priority := 10, preferredZone := "Storage_Bay", mass := 1,
    expiryDate := some "garbage", usageLimit := 5,
    containerId := some "contB", position := some ⟨⟨0, 0, 0⟩, ⟨1, 1, 1⟩⟩,
    currentUses := 0, placementTimestamp := none }

/-- Placed, unexpired, undepleted item used to exercise the success path. -/
def retrieval_ok_item : Item :=
  { itemId := "000401", name := "FreshTool", width := 1, depth := 1, height := 1,
    priority := 20, preferredZone := "Storage_Bay", mass := 1, expiryDate := none,
    usageLimit := 4, containerId := some "contB",
    position := some ⟨⟨0, 0, 0⟩, ⟨1, 1, 1⟩⟩, currentUses := 2,
    placementTimestamp := none }

/-- Placed but fully depleted item used to exercise the failure path of C9. -/
def depleted_item : Item :=
  { itemId := "000402", name := "SpentTool", width := 1, depth := 1, height := 1,
    priority := 20, preferredZone := "Storage_Bay", mass := 1, expiryDate := none,
    usageLimit := 4, containerId := some "contB",
    position := some ⟨⟨0, 0, 0⟩, ⟨1, 1, 1⟩⟩, currentUses := 4,
    placementTimestamp := none }

/-- The spec scenario item for C5: placed, expiry one day before `now = 100`,
0 of 10 uses consumed. -/
def scenario_waste_item : Item :=
  { itemId := "000042", name := "OldMeds", width := 1, depth := 1, height := 1,
    priority := 50, preferredZone := "Medical_Bay", mass := 1,
    expiryDate := some "2025-05-01", usageLimit := 10,
    containerId := some "contM", position := some ⟨⟨0, 0, 0⟩, ⟨1, 1, 1⟩⟩,
    currentUses := 0, placementTimestamp := none }

/-- Parser for the C5 scenario: day 99 for the scenario date, unparseable
otherwise. -/
def scenario_parse : String → Option Int :=
  fun s => if s == "2025-05-01" then some 99 else none

/-- A placed item's AABB lies within its container's bounds on all three axes. -/
def itemInBounds (st : ContainerState) (p : PlacedItem) : Prop :=
  0 ≤ p.x ∧ 0 ≤ p.y ∧ 0 ≤ p.z ∧
  p.x + p.width ≤ st.width ∧ p.y + p.depth ≤ st.depth ∧ p.z + p.height ≤ st.height

/-- Two placed items' AABBs do not overlap: they are separated on some axis
(the §4.1 overlap test returns false; face contact counts as separated). -/
def itemsDisjoint (p q : PlacedItem) : Prop :=
  p.x + p.width ≤ q.x ∨ q.x + q.width ≤ p.x ∨
  p.y + p.depth ≤ q.y ∨ q.y + q.depth ≤ p.y ∨
  p.z + p.height ≤ q.z ∨ q.z + q.height ≤ p.z

/-- The C1 state invariant: every placed item in bounds, all pairs disjoint. -/
def placedInv (st : ContainerState) : Prop :=
  (∀ p ∈ st.placed_items, itemInBounds st p) ∧
  st.placed_items.Pairwise itemsDisjoint

/-- A concrete `place_item` request used to instantiate C1. -/
def place_req_1 : PlaceReq := ⟨"itemA", 0, 0, 0, 5, 5, 5, (5, 5, 5), 50⟩

/-- A free box lies within its container's bounds on all three axes. -/
def freeBoxInBounds (st : ContainerState) (fs : FreeSpace) : Prop :=
  0 ≤ fs.x ∧ fs.x + fs.width ≤ st.width ∧ 0 ≤ fs.y ∧ fs.y + fs.depth ≤ st.depth ∧
  0 ≤ fs.z ∧ fs.z + fs.height ≤ st.height

/-- The box occupied by a placed item. -/
def toFreeSpace (p : PlacedItem) : FreeSpace :=
  ⟨p.x, p.y, p.z, p.width, p.depth, p.height⟩

/-- The free-space invariant that actually holds: every free box is in bounds
and overlaps no placed item. -/
def freeInv (st : ContainerState) : Prop :=
  ∀ fs ∈ st.free_spaces, freeBoxInBounds st fs ∧
    ∀ p ∈ st.placed_items, spaces_overlap fs (toFreeSpace p) = false

/-- Membership of a point in the closed box with the given origin and extents. -/
def point_in_closed_box (qx qy qz bx0 by0 bz0 bw bd bh : Rat) : Prop :=
  bx0 ≤ qx ∧ qx ≤ bx0 + bw ∧ by0 ≤ qy ∧ qy ≤ by0 + bd ∧ bz0 ≤ qz ∧ qz ≤ bz0 + bh

/-- Membership of a point in the open box with the given origin and extents. -/
def point_in_open_box (qx qy qz bx0 by0 bz0 bw bd bh : Rat) : Prop :=
  bx0 < qx ∧ qx < bx0 + bw ∧ by0 < qy ∧ qy < by0 + bd ∧ bz0 < qz ∧ qz < bz0 + bh

/-- The coverage property claimed by the specification: the free boxes cover
every interior container point not occupied by any placed item. -/
def free_spaces_cover (st : ContainerState) : Prop :=
  ∀ qx qy qz : Rat,
    point_in_open_box qx qy qz 0 0 0 st.width st.depth st.height →
    (∀ p ∈ st.placed_items,
      ¬ point_in_closed_box qx qy qz p.x p.y p.z p.width p.depth p.height) →
    ∃ fs ∈ st.free_spaces,
      point_in_closed_box qx qy qz fs.x fs.y fs.z fs.width fs.depth fs.height

/-- Container state after placing one 10×10×5 item at the origin of a fresh
10×10×10 container. -/
def coverage_cex_state : ContainerState :=
  ((initContainerState "covC" 10 10 10 "Z").place_item "A" 0 0 0 10 10 5 (10, 10, 5) 50).1

/-- C2: the code's blocking test disagrees with the specification.  Item B lies
strictly in front of target A (depth 0..5 versus A's 10..20) with an
overlapping width-height projection, so by the spec B must receive a remove
step; but `_get_blocking_items` tests `item_end.depth > target_start.depth`
(5 > 10 is false), so the computed blocking set is empty and the retrieval plan
contains no remove step at all. -/
theorem retrieval_blocking_depth_test_bug :
    get_blocking_items retrieval_target_A [retrieval_target_A, retrieval_blocker_B] = [] ∧
    spec_blocks retrieval_target_A retrieval_blocker_B ∧
    (get_retrieval_steps retrieval_target_A
        [retrieval_target_A, retrieval_blocker_B]).filter
      (fun s => s.action == "remove") = [] := by
  have hb : get_blocking_items retrieval_target_A [retrieval_target_A, retrieval_blocker_B]
      = [] := by
    show (List.mergeSort []
      fun a b => decide (position_start_depth a ≤ position_start_depth b)) = []
    exact List.mergeSort_nil
  have hsteps : get_retrieval_steps retrieval_target_A
      [retrieval_target_A, retrieval_blocker_B] =
      number_steps 1
        (((get_blocking_items retrieval_target_A
            [retrieval_target_A, retrieval_blocker_B]).map
          (fun it => ("remove", it.itemId, it.name))) ++
         [("retrieve", "000100", "TargetA")] ++
         ((get_blocking_items retrieval_target_A
            [retrieval_target_A, retrieval_blocker_B]).reverse.map
          (fun it => ("placeBack", it.itemId, it.name)))) := rfl
  refine ⟨hb, ⟨by decide, rfl⟩, ?_⟩
  rw [hsteps, hb]
  rfl

/-- C3: the usage-depletion term of the composite priority is dead code.  For a
fully depleted item (10 of 10 uses consumed, no expiry, priority 40) the claimed
formula gives 40/100×40 + 0 + 20 + 0 = 36, but the code returns 16: its usage
block is guarded by `hasattr(item, 'usageCount')`, which is false for the
`Item` model (the field is `currentUses`), so the usage score is always 0. -/
theorem composite_priority_usage_term_dead :
    calculate_composite_priority (fun _ => none) usage_dead_item 0 = 16 ∧
    composite_score_spec (fun _ => none) usage_dead_item 0 = 36 := by
  constructor
  · norm_num [calculate_composite_priority, usage_dead_item]
  · norm_num [composite_score_spec, usage_dead_item]

/-- C8 counterexample: undocking `undockC`, whose single assigned item is
`000201`, deletes that item from the item store entirely — afterwards the item
is no longer present (lookup is `none`), contradicting the claim that it stays
in the store with its placement cleared. -/
theorem execute_undocking_deletes_items_cex :
    execute_undocking "undockC" [undock_item_I1] [undock_container_C1] = (true, 1, [], []) ∧
    lookupItem
      (execute_undocking "undockC" [undock_item_I1] [undock_container_C1]).2.2.1
      "000201" = none := ⟨rfl, rfl⟩

/-- C8 (amended): for a container id present in the store, `execute_undocking`
succeeds, returns the count of items assigned to that container, deletes
exactly those items from the item store (the others survive unchanged), and
deletes exactly that container record. -/
theorem execute_undocking_removes_assigned_items :
    ∀ (cid : String) (placed_items : ItemStore) (containers : ContainerStore)
      (c : Container),
      lookupContainer containers cid = some c →
      (execute_undocking cid placed_items containers).1 = true ∧
      (execute_undocking cid placed_items containers).2.1 =
        (placed_items.filter (fun it => it.containerId == some cid)).length ∧
      (∀ it : Item, it ∈ (execute_undocking cid placed_items containers).2.2.1 ↔
         it ∈ placed_items ∧ it.containerId ≠ some cid) ∧
      (∀ ct : Container, ct ∈ (execute_undocking cid placed_items containers).2.2.2 ↔
         ct ∈ containers ∧ ct.containerId ≠ cid) := by
  intro cid placed containers c hc
  unfold execute_undocking
  rw [hc]
  refine ⟨rfl, rfl, ?_, ?_⟩
  · intro it
    simp [List.mem_filter]
  · intro ct
    simp [List.mem_filter]

/-- C8 amended witness: undocking `undockC` out of a store holding one item in
`undockC` and one in `otherC` succeeds with exactly one item removed. -/
theorem execute_undocking_removes_assigned_items_witness :
    (execute_undocking "undockC" [undock_item_I1, undock_item_I2]
      [undock_container_C1]).1 = true ∧
    (execute_undocking "undockC" [undock_item_I1, undock_item_I2]
      [undock_container_C1]).2.1 = 1 := by
  have h := execute_undocking_removes_assigned_items "undockC"
    [undock_item_I1, undock_item_I2] [undock_container_C1] undock_container_C1 rfl
  exact ⟨h.1, h.2.1.trans rfl⟩

/-- C10: an expiry string that is non-empty, not `"N/A"` and unparseable never
makes an item expired: `is_expired` is false at every date, the waste report
can only list the item as `"Out of Uses"`, and a failed `simulate_retrieval`
of the item is due to it being unplaced or depleted, never to expiry. -/
theorem unparseable_expiry_is_harmless :
    ∀ (parse : String → Option Int) (now : Int) (item : Item) (s : String),
      item.expiryDate = some s → s ≠ "" → s ≠ "N/A" → parse s = none →
      item.is_expired parse now = false ∧
      (∀ w : WasteInfo, waste_entry parse now item = some w →
        w.reason = "Out of Uses") ∧
      (∀ (item_id user_id : String) (placed_items : ItemStore),
        lookupItem placed_items item_id = some item →
        (simulate_retrieval parse item_id user_id placed_items now).2.1 = false →
        item.not_placed = true ∨ item.is_depleted = true) := by
  intro parse now item s hs hne hna hp
  have hexp : item.is_expired parse now = false := by
    unfold Item.is_expired
    rw [hs]
    simp [hne, hna, hp]
  refine ⟨hexp, ?_, ?_⟩
  · intro w hw
    unfold waste_entry at hw
    rw [hexp] at hw
    cases hnp : item.not_placed with
    | true => simp [hnp] at hw
    | false =>
      rw [hnp] at hw
      cases hd : item.is_depleted with
      | true =>
        rw [hd] at hw
        rw [if_neg Bool.false_ne_true, if_neg Bool.false_ne_true, if_pos rfl] at hw
        rw [← Option.some.inj hw]
      | false =>
        rw [hd] at hw
        simp at hw
  · intro item_id user_id placed hlook hfail
    simp only [simulate_retrieval, hlook] at hfail
    cases hnp : item.not_placed with
    | true => exact Or.inl rfl
    | false =>
      cases hd : item.is_depleted with
      | true => exact Or.inr rfl
      | false =>
        rw [hnp, hexp, hd] at hfail
        simp at hfail

/-- C10 witness: the theorem applied to a concrete item whose expiry string
`"garbage"` no parser accepts. -/
theorem unparseable_expiry_is_harmless_witness :
    unparse_item.is_expired (fun _ => none) 5 = false :=
  (unparseable_expiry_is_harmless (fun _ => none) 5 unparse_item "garbage" rfl
    (by decide) (by decide) rfl).1

/-- Looking up the mutated id after an id-preserving in-place update returns
the updated object. -/
theorem lookupItem_updateItem (store : ItemStore) (item_id : String) (f : Item → Item)
    (hf : ∀ it : Item, (f it).itemId = it.itemId) :
    lookupItem (updateItem store item_id f) item_id = (lookupItem store item_id).map f := by
  induction store with
  | nil => rfl
  | cons it rest ih =>
    by_cases h : (it.itemId == item_id) = true
    · have h2 : ((f it).itemId == item_id) = true := by rw [hf]; exact h
      simp only [updateItem, lookupItem, List.find?, h, h2, if_pos]
      rfl
    · have hb : (it.itemId == item_id) = false := by
        cases hx : (it.itemId == item_id)
        · rfl
        · exact absurd hx h
      simp only [updateItem, lookupItem, List.find?, hb, if_neg, Bool.false_eq_true,
        not_false_eq_true, if_false]
      exact ih

/-- C4: `simulate_retrieval` succeeds exactly when the item is found, placed,
unexpired and undepleted; any failure leaves the store unchanged and returns no
item; and success returns (and stores) the item with `currentUses` incremented
by exactly 1 and `containerId` and `position` untouched. -/
theorem simulate_retrieval_success_and_failure_spec :
    ∀ (parse : String → Option Int) (item_id user_id : String)
      (placed_items : ItemStore) (now : Int),
      ((simulate_retrieval parse item_id user_id placed_items now).2.1 = true ↔
        ∃ item : Item, lookupItem placed_items item_id = some item ∧
          item.not_placed = false ∧ item.is_expired parse now = false ∧
          item.is_depleted = false) ∧
      ((simulate_retrieval parse item_id user_id placed_items now).2.1 = false →
        (simulate_retrieval parse item_id user_id placed_items now).1 = placed_items ∧
        (simulate_retrieval parse item_id user_id placed_items now).2.2.2 = none) ∧
      (∀ item : Item, lookupItem placed_items item_id = some item →
        item.not_placed = false → item.is_expired parse now = false →
        item.is_depleted = false →
        (simulate_retrieval parse item_id user_id placed_items now).2.2.2 =
          some { item with currentUses := item.currentUses + 1 } ∧
        lookupItem (simulate_retrieval parse item_id user_id placed_items now).1 item_id =
          some { item with currentUses := item.currentUses + 1 } ∧
        ({ item with currentUses := item.currentUses + 1 }).containerId = item.containerId ∧
        ({ item with currentUses := item.currentUses + 1 }).position = item.position) := by
  intro parse item_id user_id placed now
  cases hlook : lookupItem placed item_id with
  | none =>
    refine ⟨?_, ?_, ?_⟩
    · simp [simulate_retrieval, hlook]
    · intro _
      simp [simulate_retrieval, hlook]
    · intro item hitem
      exact absurd hitem (by simp)
  | some item =>
    have hupd : lookupItem
        (updateItem placed item_id (fun it => { it with currentUses := it.currentUses + 1 }))
        item_id = some { item with currentUses := item.currentUses + 1 } := by
      rw [lookupItem_updateItem placed item_id
        (fun it => { it with currentUses := it.currentUses + 1 }) (fun it => rfl), hlook]
      rfl
    refine ⟨?_, ?_, ?_⟩
    · cases hnp : item.not_placed with
      | true => simp [simulate_retrieval, hlook, hnp]
      | false =>
        cases hexp : item.is_expired parse now with
        | true => simp [simulate_retrieval, hlook, hnp, hexp]
        | false =>
          cases hd : item.is_depleted with
          | true => simp [simulate_retrieval, hlook, hnp, hexp, hd]
          | false => simp [simulate_retrieval, hlook, hnp, hexp, hd]
    · intro hfail
      cases hnp : item.not_placed with
      | true => simp [simulate_retrieval, hlook, hnp]
      | false =>
        cases hexp : item.is_expired parse now with
        | true => simp [simulate_retrieval, hlook, hnp, hexp]
        | false =>
          cases hd : item.is_depleted with
          | true => simp [simulate_retrieval, hlook, hnp, hexp, hd]
          | false =>
            simp only [simulate_retrieval, hlook, hnp, hexp, hd] at hfail
            simp at hfail
    · intro item' hitem' hnp hexp hd
      have heq : item' = item := (Option.some.inj hitem').symm
      subst heq
      refine ⟨?_, ?_, rfl, rfl⟩
      · simp [simulate_retrieval, hlook, hnp, hexp, hd]
      · simp only [simulate_retrieval, hlook, hnp, hexp, hd]
        simp only [Bool.false_eq_true, if_false]
        exact hupd

/-- C4 witness: retrieving the concrete placed item succeeds and stores it with
`currentUses` bumped from 2 to 3. -/
theorem simulate_retrieval_success_and_failure_spec_witness :
    (simulate_retrieval (fun _ => none) "000401" "user1" [retrieval_ok_item] 0).2.1 = true ∧
    lookupItem (simulate_retrieval (fun _ => none) "000401" "user1" [retrieval_ok_item] 0).1
      "000401" = some { retrieval_ok_item with currentUses := retrieval_ok_item.currentUses + 1 } := by
  have h := simulate_retrieval_success_and_failure_spec (fun _ => none) "000401" "user1"
    [retrieval_ok_item] 0
  exact ⟨h.1.mpr ⟨retrieval_ok_item, rfl, rfl, rfl, rfl⟩,
    (h.2.2 retrieval_ok_item rfl rfl rfl rfl).2.1⟩

/-- C9: `simulate_retrieval` preserves `currentUses ≤ usageLimit`.  An item at
or above its limit always fails (it is depleted); any failure leaves the store
unchanged; success starts strictly below the limit and bumps the recorded
counter by exactly 1, so the bound still holds afterwards. -/
theorem simulate_retrieval_usage_bound :
    ∀ (parse : String → Option Int) (item_id user_id : String)
      (placed_items : ItemStore) (now : Int) (item : Item),
      lookupItem placed_items item_id = some item →
      item.currentUses ≤ item.usageLimit →
      ((item.usageLimit ≤ item.currentUses →
        (simulate_retrieval parse item_id user_id placed_items now).2.1 = false) ∧
       ((simulate_retrieval parse item_id user_id placed_items now).2.1 = false →
        (simulate_retrieval parse item_id user_id placed_items now).1 = placed_items) ∧
       ((simulate_retrieval parse item_id user_id placed_items now).2.1 = true →
        item.currentUses < item.usageLimit ∧
        lookupItem (simulate_retrieval parse item_id user_id placed_items now).1 item_id =
          some { item with currentUses := item.currentUses + 1 } ∧
        item.currentUses + 1 ≤ item.usageLimit)) := by
  intro parse item_id user_id placed now item hlook hbound
  have h := simulate_retrieval_success_and_failure_spec parse item_id user_id placed now
  refine ⟨?_, fun hf => (h.2.1 hf).1, ?_⟩
  · intro hge
    cases hres : (simulate_retrieval parse item_id user_id placed now).2.1 with
    | false => rfl
    | true =>
      obtain ⟨item', hitem', _, _, hd⟩ := h.1.mp hres
      have heq : item' = item := Option.some.inj (hitem'.symm.trans hlook)
      subst heq
      have : item'.is_depleted = true := by
        unfold Item.is_depleted
        simpa using hge
      rw [this] at hd
      exact absurd hd (by simp)
  · intro hres
    obtain ⟨item', hitem', hnp, hexp, hd⟩ := h.1.mp hres
    have heq : item' = item := Option.some.inj (hitem'.symm.trans hlook)
    subst heq
    have hlt : item'.currentUses < item'.usageLimit := by
      unfold Item.is_depleted at hd
      simpa using hd
    exact ⟨hlt, (h.2.2 item' hitem' hnp hexp hd).2.1, by omega⟩

/-- C9 witness: retrieving the concrete depleted item fails and leaves the
store untouched. -/
theorem simulate_retrieval_usage_bound_witness :
    (simulate_retrieval (fun _ => none) "000402" "user1" [depleted_item] 0).2.1 = false ∧
    (simulate_retrieval (fun _ => none) "000402" "user1" [depleted_item] 0).1 =
      [depleted_item] := by
  have h := simulate_retrieval_usage_bound (fun _ => none) "000402" "user1"
    [depleted_item] 0 depleted_item rfl (by decide)
  exact ⟨h.1 (by decide), h.2.1 (h.1 (by decide))⟩

/-- C5: an item yields a waste entry exactly when it is placed and expired or
depleted; the entry carries the item's id, and its reason is `"Expired"`
whenever the item is expired (even if it is also depleted), `"Out of Uses"`
otherwise. -/
theorem identify_waste_membership_spec :
    ∀ (parse : String → Option Int) (placed_items : ItemStore) (now : Int),
      (∀ w ∈ identify_waste_items parse placed_items now,
        ∃ item, item ∈ placed_items ∧ w.itemId = item.itemId ∧
          item.not_placed = false ∧
          (item.is_expired parse now = true ∨ item.is_depleted = true) ∧
          w.reason = (if item.is_expired parse now then "Expired" else "Out of Uses")) ∧
      (∀ item ∈ placed_items, item.not_placed = false →
        (item.is_expired parse now = true ∨ item.is_depleted = true) →
        ∃ w, w ∈ identify_waste_items parse placed_items now ∧ w.itemId = item.itemId ∧
          w.reason = (if item.is_expired parse now then "Expired" else "Out of Uses")) := by
  intro parse placed now
  constructor
  · intro w hw
    rw [identify_waste_items, List.mem_filterMap] at hw
    obtain ⟨item, hmem, hentry⟩ := hw
    refine ⟨item, hmem, ?_⟩
    unfold waste_entry at hentry
    cases hnp : item.not_placed with
    | true => rw [hnp] at hentry; simp at hentry
    | false =>
      rw [hnp] at hentry
      cases hexp : item.is_expired parse now with
      | true =>
        rw [hexp] at hentry
        rw [if_neg Bool.false_ne_true, if_pos rfl] at hentry
        rw [← Option.some.inj hentry]
        exact ⟨rfl, rfl, Or.inl rfl, by simp⟩
      | false =>
        rw [hexp] at hentry
        cases hd : item.is_depleted with
        | true =>
          rw [hd] at hentry
          rw [if_neg Bool.false_ne_true, if_neg Bool.false_ne_true, if_pos rfl] at hentry
          rw [← Option.some.inj hentry]
          exact ⟨rfl, rfl, Or.inr rfl, by simp⟩
        | false =>
          rw [hd] at hentry
          simp at hentry
  · intro item hmem hnp hwaste
    cases hexp : item.is_expired parse now with
    | true =>
      refine ⟨⟨item.itemId, item.name, "Expired", item.containerId, item.position⟩, ?_, rfl, ?_⟩
      · rw [identify_waste_items, List.mem_filterMap]
        refine ⟨item, hmem, ?_⟩
        unfold waste_entry
        rw [hnp, hexp]
        rw [if_neg Bool.false_ne_true, if_pos rfl]
      · simp [hexp]
    | false =>
      have hd : item.is_depleted = true := by
        rcases hwaste with h | h
        · exact absurd h (by simp [hexp])
        · exact h
      refine ⟨⟨item.itemId, item.name, "Out of Uses", item.containerId, item.position⟩,
        ?_, rfl, ?_⟩
      · rw [identify_waste_items, List.mem_filterMap]
        refine ⟨item, hmem, ?_⟩
        unfold waste_entry
        rw [hnp, hexp, hd]
        rw [if_neg Bool.false_ne_true, if_neg Bool.false_ne_true, if_pos rfl]
      · simp [hexp]

/-- C5 witness: the scenario item (expired yesterday, usage 0 of 10) appears in
the waste list with reason `"Expired"`. -/
theorem identify_waste_membership_spec_witness :
    ∃ w, w ∈ identify_waste_items scenario_parse [scenario_waste_item] 100 ∧
      w.itemId = scenario_waste_item.itemId ∧
      w.reason =
        (if scenario_waste_item.is_expired scenario_parse 100 then "Expired"
         else "Out of Uses") :=
  (identify_waste_membership_spec scenario_parse [scenario_waste_item] 100).2
    scenario_waste_item (List.mem_singleton.mpr rfl) rfl (Or.inl rfl)

/-- A successful `can_place_item` certifies the boundary checks and the
per-item separation checks. -/
theorem can_place_item_eq_true {st : ContainerState} {x y z w d h : Rat}
    (hcp : st.can_place_item x y z w d h = true) :
    (0 ≤ x ∧ 0 ≤ y ∧ 0 ≤ z ∧ x + w ≤ st.width ∧ y + d ≤ st.depth ∧ z + h ≤ st.height) ∧
    ∀ p ∈ st.placed_items, separated_from x y z w d h p = true := by
  unfold ContainerState.can_place_item at hcp
  rw [Bool.and_eq_true] at hcp
  obtain ⟨hA, hall⟩ := hcp
  rw [Bool.not_eq_true'] at hA
  simp only [Bool.or_eq_false_iff, decide_eq_false_iff_not, not_lt] at hA
  obtain ⟨⟨⟨⟨⟨h1, h2⟩, h3⟩, h4⟩, h5⟩, h6⟩ := hA
  refine ⟨⟨h1, h2, h3, h4, h5, h6⟩, ?_⟩
  rw [List.all_eq_true] at hall
  exact hall

/-- A separation certificate against an existing item yields disjointness with
the newly placed item. -/
theorem itemsDisjoint_of_separated {x y z w d h : Rat} {p : PlacedItem} (id : String)
    (od : Rat × Rat × Rat) (pr : Int)
    (hs : separated_from x y z w d h p = true) :
    itemsDisjoint p ⟨id, x, y, z, w, d, h, od, pr⟩ := by
  unfold separated_from at hs
  simp only [Bool.or_eq_true, decide_eq_true_eq, ge_iff_le] at hs
  unfold itemsDisjoint
  rcases hs with ((((hc | hc) | hc) | hc) | hc) | hc
  · exact Or.inr (Or.inl hc)
  · exact Or.inl hc
  · exact Or.inr (Or.inr (Or.inr (Or.inl hc)))
  · exact Or.inr (Or.inr (Or.inl hc))
  · exact Or.inr (Or.inr (Or.inr (Or.inr (Or.inr hc))))
  · exact Or.inr (Or.inr (Or.inr (Or.inr (Or.inl hc))))

/-- One `place_item` call preserves the C1 invariant. -/
theorem placedInv_place_item (st : ContainerState) (id : String) (x y z w d h : Rat)
    (od : Rat × Rat × Rat) (pr : Int) (hinv : placedInv st) :
    placedInv (st.place_item id x y z w d h od pr).1 := by
  unfold ContainerState.place_item
  cases hcp : st.can_place_item x y z w d h with
  | false => simpa using hinv
  | true =>
    rw [if_pos rfl]
    obtain ⟨hb, hsep⟩ := can_place_item_eq_true hcp
    obtain ⟨hbounds, hpair⟩ := hinv
    constructor
    · intro p hp
      rw [List.mem_append] at hp
      rcases hp with hp | hp
      · exact hbounds p hp
      · rw [List.mem_singleton] at hp
        subst hp
        exact hb
    · rw [List.pairwise_append]
      refine ⟨hpair, List.pairwise_singleton _ _, ?_⟩
      intro a ha b hb'
      rw [List.mem_singleton] at hb'
      subst hb'
      exact itemsDisjoint_of_separated id od pr (hsep a ha)

/-- Unfolding one step of `applyPlacements`. -/
theorem applyPlacements_cons (st : ContainerState) (r : PlaceReq) (reqs : List PlaceReq) :
    applyPlacements st (r :: reqs) =
      applyPlacements
        ((st.place_item r.item_id r.x r.y r.z r.width r.depth r.height r.original_dims
          r.priority).1) reqs := rfl

/-- The C1 invariant is preserved by any sequence of `place_item` calls. -/
theorem placedInv_applyPlacements :
    ∀ (reqs : List PlaceReq) (st : ContainerState),
      placedInv st → placedInv (applyPlacements st reqs) := by
  intro reqs
  induction reqs with
  | nil => intro st hs; exact hs
  | cons r rest ih =>
    intro st hs
    rw [applyPlacements_cons]
    exact ih _ (placedInv_place_item st r.item_id r.x r.y r.z r.width r.depth r.height
      r.original_dims r.priority hs)

/-- C1: starting from a fresh container state, after any sequence of
`place_item` calls every placed item's AABB lies within the container bounds
and every pair of placed items is non-overlapping; moreover `place_item`
commits nothing when `can_place_item` rejects the position. -/
theorem placement_no_overlap_and_containment :
    ∀ (cid : String) (W D H : Rat) (zone : String) (reqs : List PlaceReq),
      (∀ p ∈ (applyPlacements (initContainerState cid W D H zone) reqs).placed_items,
        itemInBounds (applyPlacements (initContainerState cid W D H zone) reqs) p) ∧
      (applyPlacements (initContainerState cid W D H zone) reqs).placed_items.Pairwise
        itemsDisjoint ∧
      (∀ (st : ContainerState) (r : PlaceReq),
        st.can_place_item r.x r.y r.z r.width r.depth r.height = false →
        st.place_item r.item_id r.x r.y r.z r.width r.depth r.height r.original_dims
          r.priority = (st, false)) := by
  intro cid W D H zone reqs
  have h := placedInv_applyPlacements reqs (initContainerState cid W D H zone)
    ⟨fun p hp => absurd hp (List.not_mem_nil p), List.Pairwise.nil⟩
  refine ⟨h.1, h.2, ?_⟩
  intro st r hcp
  unfold ContainerState.place_item
  rw [hcp]
  simp

/-- C1 witness: a concrete placement sequence keeps pairwise disjointness, and
a concrete rejected position (x = -1) commits nothing. -/
theorem placement_no_overlap_and_containment_witness :
    (applyPlacements (initContainerState "CW" 10 10 10 "Z") [place_req_1]).placed_items.Pairwise
      itemsDisjoint ∧
    ContainerState.place_item (initContainerState "CW" 10 10 10 "Z") "itemB" (-1) 0 0 1 1 1
      (1, 1, 1) 1 = (initContainerState "CW" 10 10 10 "Z", false) := by
  have h := placement_no_overlap_and_containment "CW" 10 10 10 "Z" [place_req_1]
  exact ⟨h.2.1, h.2.2 (initContainerState "CW" 10 10 10 "Z")
    ⟨"itemB", -1, 0, 0, 1, 1, 1, (1, 1, 1), 1⟩ (by decide)⟩

/-- Characterization of a failed overlap test: separation on some axis. -/
theorem spaces_overlap_eq_false {s1 s2 : FreeSpace} :
    spaces_overlap s1 s2 = false ↔
      (s1.x + s1.width ≤ s2.x ∨ s2.x + s2.width ≤ s1.x ∨
       s1.y + s1.depth ≤ s2.y ∨ s2.y + s2.depth ≤ s1.y ∨
       s1.z + s1.height ≤ s2.z ∨ s2.z + s2.height ≤ s1.z) := by
  unfold spaces_overlap
  rw [Bool.not_eq_false']
  simp [Bool.or_eq_true, decide_eq_true_eq, or_assoc]

/-- Characterization of a successful overlap test: strict overlap on all axes. -/
theorem spaces_overlap_eq_true {s1 s2 : FreeSpace} :
    spaces_overlap s1 s2 = true ↔
      (s2.x < s1.x + s1.width ∧ s1.x < s2.x + s2.width ∧
       s2.y < s1.y + s1.depth ∧ s1.y < s2.y + s2.depth ∧
       s2.z < s1.z + s1.height ∧ s1.z < s2.z + s2.height) := by
  unfold spaces_overlap
  rw [Bool.not_eq_true']
  simp only [Bool.or_eq_false_iff, decide_eq_false_iff_not, not_le]
  constructor
  · rintro ⟨⟨⟨⟨⟨h1, h2⟩, h3⟩, h4⟩, h5⟩, h6⟩
    exact ⟨h1, h2, h3, h4, h5, h6⟩
  · rintro ⟨h1, h2, h3, h4, h5, h6⟩
    exact ⟨⟨⟨⟨⟨h1, h2⟩, h3⟩, h4⟩, h5⟩, h6⟩

/-- A box contained in `a` (same y and z ranges, x range inside) stays
separated from anything `a` is separated from. -/
theorem spaces_overlap_sub_box {a a' b : FreeSpace}
    (hx1 : a.x ≤ a'.x) (hx2 : a'.x + a'.width ≤ a.x + a.width)
    (hy : a'.y = a.y) (hd : a'.depth = a.depth)
    (hz : a'.z = a.z) (hh : a'.height = a.height)
    (hab : spaces_overlap a b = false) : spaces_overlap a' b = false := by
  rw [spaces_overlap_eq_false] at hab ⊢
  rcases hab with hc | hc | hc | hc | hc | hc
  · exact Or.inl (by linarith)
  · exact Or.inr (Or.inl (by linarith))
  · exact Or.inr (Or.inr (Or.inl (by rw [hy, hd]; exact hc)))
  · exact Or.inr (Or.inr (Or.inr (Or.inl (by rw [hy]; exact hc))))
  · exact Or.inr (Or.inr (Or.inr (Or.inr (Or.inl (by rw [hz, hh]; exact hc)))))
  · exact Or.inr (Or.inr (Or.inr (Or.inr (Or.inr (by rw [hz]; exact hc)))))

/-- Every box produced by one split is separated from the splitting box and is
a sub-box (x range inside, y and z data equal) of the box it came from. -/
theorem mem_split_free_space {i fs fs' : FreeSpace}
    (hmem : fs' ∈ split_free_space i fs) :
    spaces_overlap fs' i = false ∧
    fs.x ≤ fs'.x ∧ fs'.x + fs'.width ≤ fs.x + fs.width ∧
    fs'.y = fs.y ∧ fs'.depth = fs.depth ∧ fs'.z = fs.z ∧ fs'.height = fs.height := by
  unfold split_free_space at hmem
  cases hov : spaces_overlap fs i with
  | true =>
    rw [hov, if_pos rfl] at hmem
    rw [spaces_overlap_eq_true] at hov
    have hin2 := (List.mem_filter.mp hmem).1
    rw [List.mem_append] at hin2
    rcases hin2 with hin2 | hin2
    · by_cases hg : i.x > fs.x
      · rw [if_pos hg] at hin2
        rw [List.mem_singleton] at hin2
        subst hin2
        refine ⟨?_, le_refl _, ?_, rfl, rfl, rfl, rfl⟩
        · rw [spaces_overlap_eq_false]
          refine Or.inl ?_
          show fs.x + (i.x - fs.x) ≤ i.x
          linarith
        · show fs.x + (i.x - fs.x) ≤ fs.x + fs.width
          have h1 := hov.1
          linarith
      · rw [if_neg hg] at hin2
        exact absurd hin2 (List.not_mem_nil fs')
    · by_cases hg : fs.x + fs.width > i.x + i.width
      · rw [if_pos hg] at hin2
        rw [List.mem_singleton] at hin2
        subst hin2
        refine ⟨?_, ?_, ?_, rfl, rfl, rfl, rfl⟩
        · rw [spaces_overlap_eq_false]
          refine Or.inr (Or.inl ?_)
          show i.x + i.width ≤ i.x + i.width
          exact le_refl _
        · show fs.x ≤ i.x + i.width
          have h2 := hov.2.1
          linarith
        · show i.x + i.width + (fs.x + fs.width - (i.x + i.width)) ≤ fs.x + fs.width
          linarith
      · rw [if_neg hg] at hin2
        exact absurd hin2 (List.not_mem_nil fs')
  | false =>
    rw [hov, if_neg Bool.false_ne_true] at hmem
    rw [List.mem_singleton] at hmem
    subst hmem
    exact ⟨hov, le_refl _, le_refl _, rfl, rfl, rfl, rfl⟩

/-- Every box surviving `update_free_spaces` is separated from the newly
placed box and is a sub-box of one of the previous free boxes. -/
theorem mem_update_free_spaces {free : List FreeSpace} {x y z w d h : Rat} {fs' : FreeSpace}
    (hmem : fs' ∈ update_free_spaces free x y z w d h) :
    spaces_overlap fs' ⟨x, y, z, w, d, h⟩ = false ∧
    ∃ fs ∈ free, fs.x ≤ fs'.x ∧ fs'.x + fs'.width ≤ fs.x + fs.width ∧
      fs'.y = fs.y ∧ fs'.depth = fs.depth ∧ fs'.z = fs.z ∧ fs'.height = fs.height := by
  simp only [update_free_spaces] at hmem
  have hmem' : fs' ∈ free.flatMap (split_free_space ⟨x, y, z, w, d, h⟩) := by
    by_cases hlen :
        (free.flatMap (split_free_space ⟨x, y, z, w, d, h⟩)).length > 50
    · rw [if_pos hlen] at hmem
      exact List.mem_mergeSort.mp (List.take_subset _ _ hmem)
    · rw [if_neg hlen] at hmem
      exact hmem
  rw [List.mem_flatMap] at hmem'
  obtain ⟨fs, hfs, hin⟩ := hmem'
  obtain ⟨hsep, hsub⟩ := mem_split_free_space hin
  exact ⟨hsep, fs, hfs, hsub⟩

/-- One `place_item` call preserves the free-space invariant. -/
theorem freeInv_place_item (st : ContainerState) (id : String) (x y z w d h : Rat)
    (od : Rat × Rat × Rat) (pr : Int) (hinv : freeInv st) :
    freeInv (st.place_item id x y z w d h od pr).1 := by
  unfold ContainerState.place_item
  cases hcp : st.can_place_item x y z w d h with
  | false => simpa using hinv
  | true =>
    rw [if_pos rfl]
    intro fs' hfs'
    obtain ⟨hnew, fs, hfsmem, hx1, hx2, hy, hd, hz, hh⟩ := mem_update_free_spaces hfs'
    obtain ⟨hbounds, hdisj⟩ := hinv fs hfsmem
    constructor
    · obtain ⟨hb1, hb2, hb3, hb4, hb5, hb6⟩ := hbounds
      refine ⟨by linarith, by linarith, ?_, ?_, ?_, ?_⟩
      · rw [hy]; exact hb3
      · rw [hy, hd]; exact hb4
      · rw [hz]; exact hb5
      · rw [hz, hh]; exact hb6
    · intro p hp
      rw [List.mem_append] at hp
      rcases hp with hp | hp
      · exact spaces_overlap_sub_box hx1 hx2 hy hd hz hh (hdisj p hp)
      · rw [List.mem_singleton] at hp
        subst hp
        exact hnew

/-- The free-space invariant is preserved by any sequence of `place_item`
calls. -/
theorem freeInv_applyPlacements :
    ∀ (reqs : List PlaceReq) (st : ContainerState),
      freeInv st → freeInv (applyPlacements st reqs) := by
  intro reqs
  induction reqs with
  | nil => intro st hs; exact hs
  | cons r rest ih =>
    intro st hs
    rw [applyPlacements_cons]
    exact ih _ (freeInv_place_item st r.item_id r.x r.y r.z r.width r.depth r.height
      r.original_dims r.priority hs)

/-- C7 (amended): the fresh state's free set is the single whole-container
box, and after any sequence of `place_item` calls every free box still lies in
bounds and overlaps no placed item — but the free set need not cover all
unoccupied volume (see the coverage counterexample). -/
theorem free_space_disjointness_amended :
    ∀ (cid : String) (W D H : Rat) (zone : String) (reqs : List PlaceReq),
      freeInv (applyPlacements (initContainerState cid W D H zone) reqs) ∧
      (initContainerState cid W D H zone).free_spaces = [⟨0, 0, 0, W, D, H⟩] := by
  intro cid W D H zone reqs
  refine ⟨freeInv_applyPlacements reqs _ ?_, rfl⟩
  intro fs hfs
  rw [show (initContainerState cid W D H zone).free_spaces = [⟨0, 0, 0, W, D, H⟩] from rfl,
    List.mem_singleton] at hfs
  subst hfs
  refine ⟨⟨le_refl 0, by simp [initContainerState], le_refl 0, by simp [initContainerState],
    le_refl 0, by simp [initContainerState]⟩, ?_⟩
  intro p hp
  exact absurd hp (List.not_mem_nil p)

/-- C7 counterexample: after placing a 10×10×5 item at the origin of a fresh
10×10×10 container, the two-way split leaves no free box at all, yet the upper
half of the container (e.g. the point (1, 1, 7)) is unoccupied — so the free
set does not cover all unoccupied volume. -/
theorem free_space_coverage_cex :
    coverage_cex_state.free_spaces = [] ∧
    ¬ free_spaces_cover coverage_cex_state := by
  have hcp : (initContainerState "covC" 10 10 10 "Z").can_place_item 0 0 0 10 10 5 = true := by
    unfold ContainerState.can_place_item initContainerState
    simp only [List.all_nil, Bool.and_true]
    rw [Bool.not_eq_true']
    simp only [Bool.or_eq_false_iff, decide_eq_false_iff_not, not_lt]
    norm_num
  have hov : spaces_overlap ⟨0, 0, 0, 10, 10, 10⟩ ⟨0, 0, 0, 10, 10, 5⟩ = true := by
    rw [spaces_overlap_eq_true]
    norm_num
  have hsplit : split_free_space ⟨0, 0, 0, 10, 10, 5⟩ ⟨0, 0, 0, 10, 10, 10⟩ = [] := by
    unfold split_free_space
    rw [hov, if_pos rfl]
    rw [if_neg (by norm_num), if_neg (by norm_num)]
    rfl
  have hfree : coverage_cex_state.free_spaces = [] := by
    have h1 : coverage_cex_state.free_spaces =
        update_free_spaces [⟨0, 0, 0, 10, 10, 10⟩] 0 0 0 10 10 5 := by
      unfold coverage_cex_state ContainerState.place_item
      rw [hcp, if_pos rfl]
      rfl
    rw [h1]
    simp only [update_free_spaces, List.flatMap_cons, List.flatMap_nil, hsplit,
      List.append_nil, List.length_nil]
    norm_num
  have hplaced : coverage_cex_state.placed_items =
      [⟨"A", 0, 0, 0, 10, 10, 5, (10, 10, 5), 50⟩] := by
    unfold coverage_cex_state ContainerState.place_item
    rw [hcp, if_pos rfl]
    rfl
  have hw : coverage_cex_state.width = 10 := by
    unfold coverage_cex_state ContainerState.place_item
    rw [hcp, if_pos rfl]
    rfl
  have hdp : coverage_cex_state.depth = 10 := by
    unfold coverage_cex_state ContainerState.place_item
    rw [hcp, if_pos rfl]
    rfl
  have hht : coverage_cex_state.height = 10 := by
    unfold coverage_cex_state ContainerState.place_item
    rw [hcp, if_pos rfl]
    rfl
  refine ⟨hfree, ?_⟩
  intro hcov
  have hin : point_in_open_box 1 1 7 0 0 0 coverage_cex_state.width
      coverage_cex_state.depth coverage_cex_state.height := by
    rw [hw, hdp, hht]
    unfold point_in_open_box
    norm_num
  have hnot : ∀ p ∈ coverage_cex_state.placed_items,
      ¬ point_in_closed_box 1 1 7 p.x p.y p.z p.width p.depth p.height := by
    intro p hp
    rw [hplaced, List.mem_singleton] at hp
    subst hp
    unfold point_in_closed_box
    intro hcon
    have h7 := hcon.2.2.2.2.2
    norm_num at h7
  obtain ⟨fs, hfs, _⟩ := hcov 1 1 7 hin hnot
  rw [hfree] at hfs
  exact absurd hfs (List.not_mem_nil fs)
